import Mathlib

/-!
Formal model of `slackgammon.py`, a Slack frontend for GNU Backgammon.

The program drives one `gnubg` subprocess per active game.  We embed it
shallowly:

* `StreamReadlines` (the idle-timeout line reader) is modelled as a pure
  function over the list of outcomes of the successive `readline`-with-timeout
  awaits; `ReadEvent.read s` is a read that returned the bytes `s` before the
  timeout (an empty `s` is the end-of-stream marker, exactly as in the source,
  which tests `if line:`), and `ReadEvent.timeout` is an elapsed wait.
* `GnubgWorker` holds the engine subprocess.  The engine itself is external,
  so it is modelled as an oracle `engine : List String → String` giving the
  (joined) response to the last command as a function of the whole command
  history written to the process's stdin; `hist` is that history, i.e. the
  exact sequence of lines written to the engine's input stream.  `exited`,
  `killed` and `exitsWithinGrace` model the OS process state; the last is the
  environment's choice of whether the process exits inside the 0.1s grace
  period of `GnubgWorker.quit`.
* `GnubgManager` carries the session registry `workers` (the Python dict
  `{(player1, player2): GnubgWorker}`, as an insertion-ordered association
  list, which is how CPython iterates it) and `max_games`.  `posts` logs the
  Slack webhook messages (delivery is external I/O and affects no state).
  `retired` is a ghost log recording workers that the `quit` handler
  terminated and removed, used only to state properties; no operation reads it.
* Python mutates `GnubgWorker` objects in place through aliases held in the
  registry; the functional model passes the updated worker explicitly and
  writes it back into the registry under its key (`updateWorker`).
* An unhandled Python exception (IndexError from `split()[0]` on an empty
  turn response, StopIteration from the opponent search) is modelled as
  `Option.none`.
-/

set_option maxHeartbeats 1000000

/-- Outcome of one awaited `readline` bounded by the idle timeout, in
`StreamReadlines.__anext__`: either the read completed with bytes `s`
(`s = ""` is EOF), or the timeout elapsed first. -/
inductive ReadEvent where
  | read (s : String) : ReadEvent
  | timeout : ReadEvent
deriving DecidableEq, Repr

/-- `StreamReadlines`: iterate `readline` with a per-line idle timeout; a
non-empty line is yielded and iteration continues; an empty read (EOF) or an
elapsed timeout raises `StopAsyncIteration`, ending the sequence. -/
def StreamReadlines : List ReadEvent → List String
  | [] => []
  | ReadEvent.read s :: rest => if s = "" then [] else s :: StreamReadlines rest
  | ReadEvent.timeout :: _ => []

/-- HTTP-level results returned by the `GnubgManager` operations
(`web.Response`, `web.HTTPForbidden`, `web.HTTPServiceUnavailable`,
`web.HTTPBadRequest`). -/
inductive Resp where
  | ok : Resp
  | okText (text : String) : Resp
  | forbidden (text : String) : Resp
  | serviceUnavailable (text : String) : Resp
  | badRequest (text : String) : Resp
deriving DecidableEq, Repr

/-- `GnubgWorker`: one engine subprocess.  `engine` is the oracle giving the
engine's joined output for the last written command as a function of the full
stdin history; `hist` is the list of lines written to the process's stdin so
far. -/
structure GnubgWorker where
  engine : List String → String
  hist : List String := []
  exited : Bool := false
  exitsWithinGrace : Bool := true
  killed : Bool := false

/-- `GnubgWorker.command`: `writeline(command)` then drain the response via
`StreamReadlines`; returns the updated worker and the joined output lines. -/
def GnubgWorker.command (w : GnubgWorker) (c : String) : GnubgWorker × String :=
  let h := w.hist ++ [c]
  ({ w with hist := h }, w.engine h)

/-- `proc.kill()`: raises `ProcessLookupError` (modelled `none`) if the
process has already exited. -/
def GnubgWorker.kill (w : GnubgWorker) : Option GnubgWorker :=
  if w.exited then none else some { w with exited := true, killed := true }

/-- `GnubgWorker.quit`: send the engine quit sequence (`quit`, then the `y`
confirmation), await process exit for the 0.1s grace period, and `kill()` on
timeout.  `none` models an unhandled exception. -/
def GnubgWorker.quit (w : GnubgWorker) : Option GnubgWorker :=
  let w1 := (w.command ("quit")).1
  let w2 := (w1.command ("y")).1
  if w2.exited then some w2
  else if w2.exitsWithinGrace then some { w2 with exited := true }
  else w2.kill

/-- The session registry (`GnubgManager`).  `retired` is a ghost log of
workers terminated and removed by the `quit` handler (for specification
only; no operation reads it). -/
structure GnubgManager where
  max_games : Nat
  workers : List ((String × String) × GnubgWorker) := []
  posts : List String := []
  retired : List GnubgWorker := []

/-- `SlackTemplate.NewGame` message. -/
def SlackTemplate.NewGame (challenger challenged board : String) : String :=
  challenger ++ " started a new game against " ++ challenged ++ ":\n```\n" ++ board ++ "```"

/-- `SlackTemplate.Command` message. -/
def SlackTemplate.Command (player command gnubg_output : String) : String :=
  player ++ " attempted to `" ++ command ++ "`:\n```\n" ++ gnubg_output ++ "```"

/-- `SlackTemplate.Quit` message. -/
def SlackTemplate.Quit (quitter opponent : String) : String :=
  quitter ++ " quit game against " ++ opponent

/-- `SlackTemplate.Info` message. -/
def SlackTemplate.Info (active_games max_games games : String) : String :=
  "There are currently " ++ active_games ++ "/" ++ max_games ++ " games:\n" ++ games

/-- Error text of `HTTPForbidden` when the caller has no session. -/
def noGameText : String := "You do not have a game in progress."

/-- Error text of `HTTPForbidden` on a wrong-turn attempt
(the source literal contains an apostrophe, code point 39). -/
def wrongTurnText : String :=
  "It" ++ String.singleton (Char.ofNat 39) ++ "s not your turn!"

/-- Error text of `HTTPServiceUnavailable` when the game limit is reached. -/
def capacityText : String := "Max game limit reached. Try again after a game has finished."

/-- Error text of `HTTPForbidden` when the caller already has a game. -/
def conflictText : String := "You already have a game in progress."

/-- Error text of `HTTPBadRequest` for a malformed opponent specification. -/
def validationText : String := "You must challenge gnubg or an existing slack user (e.g. @austin)"

/-- `user_name in ps` for a two-tuple of players. -/
def inPair (ps : String × String) (u : String) : Bool :=
  ps.1 == u || ps.2 == u

/-- The list comprehension in `game_required`, taking the first entry
(`game[0]`) whose key contains the caller. -/
def findGame (ws : List ((String × String) × GnubgWorker)) (u : String) :
    Option ((String × String) × GnubgWorker) :=
  ws.find? (fun pw => inPair pw.1 u)

/-- `next(p for p in players if p != user_name)`: the first component of the
pair differing from the caller; `none` models `StopIteration`. -/
def otherPlayer (ps : String × String) (u : String) : Option String :=
  if ps.1 != u then some ps.1 else if ps.2 != u then some ps.2 else none

/-- Python `s.startswith(pre)`: prefix test on the character sequences
(structurally recursive, unlike `String.startsWith`, so that concrete
scenarios evaluate inside the kernel). -/
def pyStartswith (s pre : String) : Bool :=
  pre.data.isPrefixOf s.data

/-- Python `s.split()[0]` as a total function: the first maximal run of
non-whitespace characters, or `none` (IndexError) when the string is empty or
whitespace-only. -/
def firstToken (s : String) : Option String :=
  match s.data.dropWhile Char.isWhitespace with
  | [] => none
  | c :: cs => some (String.mk (c :: cs.takeWhile (fun a => !a.isWhitespace)))

/-- Writing the (possibly mutated) worker back into the registry under its
key; models Python's in-place mutation through the dict-held alias. -/
def updateWorker (ws : List ((String × String) × GnubgWorker))
    (k : String × String) (w : GnubgWorker) :
    List ((String × String) × GnubgWorker) :=
  ws.map (fun pw => if pw.1 == k then (k, w) else pw)

/-- Python dict assignment `self.workers[k] = w`. -/
def dictSet (ws : List ((String × String) × GnubgWorker))
    (k : String × String) (w : GnubgWorker) :
    List ((String × String) × GnubgWorker) :=
  if ws.any (fun pw => pw.1 == k) then updateWorker ws k w else ws ++ [(k, w)]

/-- Python dict deletion `del self.workers[k]` (keys are unique in a dict). -/
def delKey (ws : List ((String × String) × GnubgWorker)) (k : String × String) :
    List ((String × String) × GnubgWorker) :=
  ws.filter (fun pw => pw.1 != k)

/-- Type of a `GnubgManager` command entry point: state, `params`,
`slack_params['user_name']`.  `none` models an unhandled exception escaping
the handler. -/
abbrev GatedOp := GnubgManager → List String → String → Option (GnubgManager × Resp)

/-- Type of a handler wrapped by `game_required`: it additionally receives the
session key, the opponent and the (already turn-queried) worker. -/
abbrev Handler := GnubgManager → List String → String → (String × String) → String →
  GnubgWorker → Option (GnubgManager × Resp)

/-- The `game_required` decorator: require a session for the caller, query
`show turn`, enforce the caller's turn when `turn_required`, then run the
wrapped handler.  `turn = gnubg_output.split()[0]` is evaluated before the
`turn_required` test, so an empty turn response raises (IndexError, `none`)
on every wrapped command. -/
def game_required (turn_required : Bool) (f : Handler) : GatedOp :=
  fun self params user_name =>
    match findGame self.workers user_name with
    | none => some (self, Resp.forbidden noGameText)
    | some (ps, worker) =>
      match otherPlayer ps user_name with
      | none => none
      | some opponent =>
        let wout := worker.command ("show turn")
        let self1 := { self with workers := updateWorker self.workers ps wout.1 }
        match firstToken wout.2 with
        | none => none
        | some turn =>
          if turn_required && turn != user_name then
            some (self1, Resp.forbidden wrongTurnText)
          else f self1 params user_name ps opponent wout.1

/-- The `run_command` decorator body: send `f.__name__` plus params to the
engine, post the output to Slack, re-query `show turn`, and if the engine
reports `No game` terminate the worker (note: the session entry is NOT
deleted from the registry here). -/
def run_command (name : String) : Handler :=
  fun self params player ps _opponent worker =>
    let command := String.intercalate " " (name :: params)
    let cout := worker.command command
    let self1 := { self with
      workers := updateWorker self.workers ps cout.1,
      posts := self.posts ++ [SlackTemplate.Command player command cout.2] }
    let tout := cout.1.command ("show turn")
    let self2 := { self1 with workers := updateWorker self1.workers ps tout.1 }
    if pyStartswith tout.2 "No game" then
      (GnubgWorker.quit tout.1).map (fun w3 =>
        ({ self2 with workers := updateWorker self2.workers ps w3 }, Resp.ok))
    else
      some (self2, Resp.ok)

/-- The static command catalog (source order of the `COMMANDS` dict literal):
name, argument names, help text. -/
def COMMANDS : List (String × List String × String) :=
  [("help", [], "Print a list of all commands"),
   ("info", [], "Print info about running games."),
   ("new", ["player"], "Start a new game against <player> (default: gnubg)"),
   ("move", ["from1", "to1", "..."], "Move checkers"),
   ("double", [], "Offer a double"),
   ("roll", [], "Roll the dice"),
   ("accept", [], "Accept a cube or resignation"),
   ("redouble", [], "Accept the cube one level higher than it was offered"),
   ("reject", [], "Reject a cube or resignation"),
   ("resign", [], "Offer to end the current game"),
   ("quit", [], "Quit active game")]

/-- `HELP_TEXT`, rendered from the catalog. -/
def HELP_TEXT : String :=
  "Commands:\n" ++ String.intercalate "\n"
    (COMMANDS.map (fun cd =>
      cd.1 ++ " " ++ String.intercalate " " (cd.2.1.map (fun a => "<" ++ a ++ ">"))
        ++ ": " ++ cd.2.2))

/-- `help`: returns the catalog text; no session or turn check. -/
def GnubgManager.help (self : GnubgManager) (_params : List String)
    (_user_name : String) : GnubgManager × Resp :=
  (self, Resp.okText HELP_TEXT)

/-- `info`: active session count and participant pairs; no session or turn
check. -/
def GnubgManager.info (self : GnubgManager) (_params : List String)
    (_user_name : String) : GnubgManager × Resp :=
  (self, Resp.okText (SlackTemplate.Info (toString self.workers.length)
    (toString self.max_games)
    (String.intercalate "\n"
      (self.workers.map (fun pw => pw.1.1 ++ " vs. " ++ pw.1.2)))))

/-- Opponent resolution in `new`: default `gnubg` when `params` is empty or
names `gnubg`; an `@`-marked Slack name has the `@` stripped; anything else
is rejected (`none`). -/
def resolveChallenged (params : List String) : Option String :=
  match params with
  | [] => some "gnubg"
  | p0 :: _ =>
    if p0 == "gnubg" then some "gnubg"
    else if pyStartswith p0 "@" then some (p0.drop 1)
    else none

/-- `new`: capacity check, then caller-conflict check, then opponent
resolution; on success configure the fresh worker (player names, marking the
opponent side human only for a real participant), start a game, register the
session and post the board.  `fresh` is the just-started worker handed in by
the environment (`GnubgWorker(); start(...)` spawns it; no stdin lines have
been written yet).  The source registers the worker object before writing the
set-up commands to it and mutates it in place; the model registers the same
worker in its final state. -/
def GnubgManager.new (self : GnubgManager) (params : List String)
    (user_name : String) (fresh : GnubgWorker) : GnubgManager × Resp :=
  if self.workers.length = self.max_games then
    (self, Resp.serviceUnavailable capacityText)
  else if self.workers.any (fun pw => inPair pw.1 user_name) then
    (self, Resp.forbidden conflictText)
  else
    match resolveChallenged params with
    | none => (self, Resp.badRequest validationText)
    | some challenged =>
      let w1 := (fresh.command ("set player 1 name " ++ user_name)).1
      let w2 :=
        if challenged != "gnubg" then
          ((w1.command ("set player 0 human")).1.command
            ("set player 0 name " ++ challenged)).1
        else w1
      let gout := w2.command ("new game")
      ({ self with
          workers := dictSet self.workers (user_name, challenged) gout.1,
          posts := self.posts ++ [SlackTemplate.NewGame user_name challenged gout.2] },
       Resp.ok)

/-- The `quit` handler body (inside `game_required(turn_required=False)`):
terminate the worker, delete the caller's session key, post the quit
notification.  The terminated worker is also recorded in the ghost `retired`
log. -/
def quitHandler : Handler :=
  fun self _params player ps opponent worker =>
    (GnubgWorker.quit worker).map (fun w1 =>
      let self1 := { self with workers := updateWorker self.workers ps w1 }
      let key := if self1.workers.any (fun pw => pw.1 == (player, opponent)) then
          (player, opponent)
        else (opponent, player)
      ({ self1 with
          workers := delKey self1.workers key,
          posts := self1.posts ++ [SlackTemplate.Quit player opponent],
          retired := self1.retired ++ [w1] },
       Resp.ok))

/-- `move` (turn required). -/
def GnubgManager.move : GatedOp := game_required true (run_command "move")

/-- `double` (turn required). -/
def GnubgManager.double : GatedOp := game_required true (run_command "double")

/-- `roll` (turn required). -/
def GnubgManager.roll : GatedOp := game_required true (run_command "roll")

/-- `accept` (session required, any turn). -/
def GnubgManager.accept : GatedOp := game_required false (run_command "accept")

/-- `redouble` (session required, any turn). -/
def GnubgManager.redouble : GatedOp := game_required false (run_command "redouble")

/-- `reject` (session required, any turn). -/
def GnubgManager.reject : GatedOp := game_required false (run_command "reject")

/-- `resign` (turn required). -/
def GnubgManager.resign : GatedOp := game_required true (run_command "resign")

/-- `quit` (session required, any turn). -/
def GnubgManager.quit : GatedOp := game_required false quitHandler

/-- The user-visible command names, as dispatched by
`getattr(gnubg_manager, gnubg_command)` in the webhook handler. -/
inductive Cmd where
  | help | info | new | move | double | roll
  | accept | redouble | reject | resign | quit
deriving DecidableEq, Repr

/-- Dispatch of a catalog command to its `GnubgManager` member; `fresh` is
the worker `new` would spawn (ignored by every other command). -/
def dispatch (c : Cmd) (self : GnubgManager) (params : List String)
    (user_name : String) (fresh : GnubgWorker) : Option (GnubgManager × Resp) :=
  match c with
  | Cmd.help => some (self.help params user_name)
  | Cmd.info => some (self.info params user_name)
  | Cmd.new => some (self.new params user_name fresh)
  | Cmd.move => GnubgManager.move self params user_name
  | Cmd.double => GnubgManager.double self params user_name
  | Cmd.roll => GnubgManager.roll self params user_name
  | Cmd.accept => GnubgManager.accept self params user_name
  | Cmd.redouble => GnubgManager.redouble self params user_name
  | Cmd.reject => GnubgManager.reject self params user_name
  | Cmd.resign => GnubgManager.resign self params user_name
  | Cmd.quit => GnubgManager.quit self params user_name

/-- Keys of the session registry. -/
def keysOf (m : GnubgManager) : List (String × String) :=
  m.workers.map Prod.fst

/-- Worker stored under a key. -/
def lookupWorker (ws : List ((String × String) × GnubgWorker))
    (k : String × String) : Option GnubgWorker :=
  (ws.find? (fun pw => pw.1 == k)).map Prod.snd

example : StreamReadlines [ReadEvent.read "a\n", ReadEvent.read "b\n", ReadEvent.timeout] =
    ["a\n", "b\n"] := by decide

example : firstToken " alice to roll " = some "alice" := by decide

example : firstToken "  \n " = none := by decide

/-! ### Helper lemmas -/

/-- `GnubgWorker.quit` always returns `some`: it appends the quit sequence to
the stdin history, leaves the process exited, and force-kills exactly when the
process had not exited and does not exit within the grace period. -/
theorem GnubgWorker.quit_spec (w : GnubgWorker) :
    GnubgWorker.quit w = some ({ w with
      hist := w.hist ++ ["quit", "y"],
      exited := true,
      killed := w.killed || (!w.exited && !w.exitsWithinGrace) }) := by
  cases w with
  | mk engine hist exited exitsWithinGrace killed =>
    cases exited <;> cases exitsWithinGrace <;>
      simp [GnubgWorker.quit, GnubgWorker.command, GnubgWorker.kill]

/-- Writing a worker back under its key does not change the key list. -/
theorem updateWorker_keys (ws : List ((String × String) × GnubgWorker))
    (k : String × String) (w : GnubgWorker) :
    (updateWorker ws k w).map Prod.fst = ws.map Prod.fst := by
  simp only [updateWorker, List.map_map]
  refine List.map_congr_left (fun pw _ => ?_)
  by_cases h : pw.1 = k
  · simp [Function.comp_apply, h]
  · simp [Function.comp_apply, beq_iff_eq, h]

/-- Membership of a key is invariant under `updateWorker`. -/
theorem any_key_updateWorker (ws : List ((String × String) × GnubgWorker))
    (k0 : String × String) (w : GnubgWorker) (k : String × String) :
    ((updateWorker ws k0 w).any (fun pw => pw.1 == k)) =
      ws.any (fun pw => pw.1 == k) := by
  induction ws with
  | nil => rfl
  | cons pw rest ih =>
    by_cases h : pw.1 = k0
    · simp only [updateWorker, List.map_cons, List.any_cons] at *
      rw [if_pos (beq_iff_eq.2 h), ih, h]
    · simp only [updateWorker, List.map_cons, List.any_cons] at *
      rw [if_neg (fun hc => h (beq_iff_eq.1 hc)), ih]

/-- `List.find?` unfolded one step as an `if`. -/
theorem find?_cons_if {α : Type} (p : α → Bool) (a : α) (l : List α) :
    List.find? p (a :: l) = if p a then some a else List.find? p l := by
  rw [List.find?_cons]
  by_cases h : p a = true
  · rw [if_pos h, h]
  · rw [if_neg h, Bool.eq_false_iff.2 h]

/-- Looking up a key after writing a worker under it yields that worker. -/
theorem lookupWorker_updateWorker (ws : List ((String × String) × GnubgWorker))
    (k : String × String) (w : GnubgWorker)
    (h : ws.any (fun pw => pw.1 == k) = true) :
    lookupWorker (updateWorker ws k w) k = some w := by
  induction ws with
  | nil => simp at h
  | cons pw rest ih =>
    by_cases hk : pw.1 = k
    · simp only [updateWorker, List.map_cons, if_pos (beq_iff_eq.2 hk), lookupWorker,
        find?_cons_if]
      rw [if_pos (beq_iff_eq.2 rfl)]
      rfl
    · have hbf : ¬(pw.1 == k) = true := fun hc => hk (beq_iff_eq.1 hc)
      simp only [List.any_cons, Bool.or_eq_true] at h
      rcases h with h | h
      · exact absurd h hbf
      · simp only [updateWorker, List.map_cons, if_neg hbf, lookupWorker, find?_cons_if]
        simpa only [lookupWorker, updateWorker] using ih h

/-- Deleting a key filters it out of the key list. -/
theorem delKey_keys (ws : List ((String × String) × GnubgWorker))
    (k : String × String) :
    (delKey ws k).map Prod.fst = (ws.map Prod.fst).filter (fun x => x != k) := by
  induction ws with
  | nil => rfl
  | cons pw rest ih =>
    simp only [delKey, List.filter_cons, List.map_cons] at *
    by_cases h : (pw.1 != k) = true
    · rw [if_pos h, if_pos h, List.map_cons, ih]
    · rw [if_neg h, if_neg h, ih]

/-- A successful `findGame` means the key is registered and contains the
caller. -/
theorem findGame_mem (ws : List ((String × String) × GnubgWorker)) (u : String)
    (ps : String × String) (w : GnubgWorker)
    (h : findGame ws u = some (ps, w)) :
    ws.any (fun pw => pw.1 == ps) = true ∧ inPair ps u = true := by
  have h' : List.find? (fun pw => inPair pw.1 u) ws = some (ps, w) := h
  refine ⟨List.any_eq_true.2 ⟨(ps, w), List.mem_of_find?_eq_some h', beq_iff_eq.2 rfl⟩, ?_⟩
  have h2 := List.find?_some h'
  exact h2

/-- Reduction of `game_required` when the caller has no session. -/
theorem game_required_no_session (tr : Bool) (f : Handler) (self : GnubgManager)
    (params : List String) (u : String)
    (h : findGame self.workers u = none) :
    game_required tr f self params u = some (self, Resp.forbidden noGameText) := by
  simp [game_required, h]

/-- Reduction of `game_required` when the caller owns a session and the turn
query yields a token. -/
theorem game_required_found (tr : Bool) (f : Handler) (self : GnubgManager)
    (params : List String) (u : String) (ps : String × String)
    (w : GnubgWorker) (opp t : String)
    (hf : findGame self.workers u = some (ps, w))
    (ho : otherPlayer ps u = some opp)
    (ht : firstToken (w.command "show turn").2 = some t) :
    game_required tr f self params u =
      if tr && t != u then
        some ({ self with workers := updateWorker self.workers ps (w.command "show turn").1 },
          Resp.forbidden wrongTurnText)
      else
        f { self with workers := updateWorker self.workers ps (w.command "show turn").1 }
          params u ps opp (w.command "show turn").1 := by
  simp only [game_required, hf, ho, ht]

/-- Reduction of `game_required` when the turn query yields no token: the
IndexError escapes. -/
theorem game_required_no_token (tr : Bool) (f : Handler) (self : GnubgManager)
    (params : List String) (u : String) (ps : String × String)
    (w : GnubgWorker) (opp : String)
    (hf : findGame self.workers u = some (ps, w))
    (ho : otherPlayer ps u = some opp)
    (ht : firstToken (w.command "show turn").2 = none) :
    game_required tr f self params u = none := by
  simp only [game_required, hf, ho, ht]

/-- `run_command` always returns `some` with an HTTP 200, and never changes
the key list of the registry. -/
theorem run_command_spec (name : String) (self : GnubgManager) (params : List String)
    (player : String) (ps : String × String) (opp : String) (w : GnubgWorker) :
    ∃ m1, run_command name self params player ps opp w = some (m1, Resp.ok) ∧
      m1.workers.map Prod.fst = self.workers.map Prod.fst := by
  simp only [run_command]
  split
  · rw [GnubgWorker.quit_spec]
    exact ⟨_, rfl, by simp [updateWorker_keys]⟩
  · exact ⟨_, rfl, by simp [updateWorker_keys]⟩

/-- `quitHandler` always returns `some` with an HTTP 200: it terminates the
worker, records it in the ghost `retired` log, and deletes the computed
session key. -/
theorem quitHandler_spec (self : GnubgManager) (params : List String)
    (player : String) (ps : String × String) (opp : String) (w : GnubgWorker) :
    ∃ w1 m1, quitHandler self params player ps opp w = some (m1, Resp.ok) ∧
      w1.exited = true ∧ w1.hist = w.hist ++ ["quit", "y"] ∧
      m1.retired = self.retired ++ [w1] ∧
      m1.workers = delKey (updateWorker self.workers ps w1)
        (if (updateWorker self.workers ps w1).any (fun pw => pw.1 == (player, opp)) then
          (player, opp)
        else (opp, player)) := by
  simp only [quitHandler]
  rw [GnubgWorker.quit_spec]
  exact ⟨_, _, rfl, rfl, rfl, rfl, rfl⟩

/-- A string all of whose characters are whitespace has no first token
(`split()[0]` raises IndexError). -/
theorem firstToken_whitespace (s : String)
    (h : ∀ c ∈ s.data, c.isWhitespace = true) :
    firstToken s = none := by
  simp only [firstToken, List.dropWhile_eq_nil_iff.2 h]

/-! ### Concrete fixtures for counterexamples and witnesses -/

/-- An engine that answers every command with a board dump (never consulted
for turn decisions in the scenarios using it). -/
def engQuiet : List String → String := fun _ => "board"

/-- An engine that always reports it is alice's turn. -/
def engTurnAlice : List String → String := fun _ => "alice to roll"

/-- A worker whose engine always reports alice's turn. -/
def wSimple : GnubgWorker := { engine := engTurnAlice }

/-- A registry holding the single session alice vs. bob. -/
def mSimple : GnubgManager :=
  { max_games := 1, workers := [(("alice", "bob"), wSimple)] }

/-! ### C8 -/

/-- C8: over one invocation of the response reader, every complete line read
before an idle timeout is yielded in emission order; the sequence ends
without error at the first wait that times out with no line, and ends
immediately at an end-of-stream (empty) read regardless of the timeout. -/
theorem c8_response_reader (ls : List String) (rest : List ReadEvent)
    (h : "" ∉ ls) :
    StreamReadlines (ls.map ReadEvent.read ++ ReadEvent.timeout :: rest) = ls ∧
    StreamReadlines (ls.map ReadEvent.read ++ ReadEvent.read "" :: rest) = ls := by
  induction ls with
  | nil => exact ⟨rfl, rfl⟩
  | cons s tail ih =>
    have hs : ¬s = "" := by
      rintro rfl
      exact h (List.mem_cons_self _ _)
    have h' : "" ∉ tail := fun ht => h (List.mem_cons_of_mem _ ht)
    obtain ⟨ih1, ih2⟩ := ih h'
    constructor <;> simp [StreamReadlines, hs, ih1, ih2]

/-- Witness for C8 at a concrete stream. -/
theorem c8_response_reader_witness :
    StreamReadlines ([ "a\n", "b\n" ].map ReadEvent.read ++
      ReadEvent.timeout :: [ReadEvent.read "c\n"]) = ["a\n", "b\n"] ∧
    StreamReadlines ([ "a\n", "b\n" ].map ReadEvent.read ++
      ReadEvent.read "" :: [ReadEvent.read "c\n"]) = ["a\n", "b\n"] :=
  c8_response_reader ["a\n", "b\n"] [ReadEvent.read "c\n"] (by decide)

/-! ### C9 -/

/-- C9: `terminate` issues the quit command and its confirmation, always
returns without error, leaves the process exited, and force-kills exactly
when the process had not already exited and does not exit within the grace
period (in particular it performs no kill, and raises nothing, on an
already-exited process). -/
theorem c9_terminate (w : GnubgWorker) :
    ∃ w1, GnubgWorker.quit w = some w1 ∧
      w1.hist = w.hist ++ ["quit", "y"] ∧
      w1.exited = true ∧
      w1.killed = (w.killed || (!w.exited && !w.exitsWithinGrace)) :=
  ⟨_, GnubgWorker.quit_spec w, rfl, rfl, rfl⟩

/-! ### C10 -/

/-- C10: the `game_required` wrapper takes the first whitespace-delimited
token of the turn-query response; on an empty or whitespace-only response the
indexing raises an unhandled exception (modelled `none`) instead of any
specified error result, for every wrapped command (turn-gated or `quit`). -/
theorem c10_empty_turn_response (tr : Bool) (f : Handler) (self : GnubgManager)
    (params : List String) (u : String) (ps : String × String)
    (w : GnubgWorker) (opp : String)
    (hf : findGame self.workers u = some (ps, w))
    (ho : otherPlayer ps u = some opp)
    (hws : ∀ c ∈ ((w.command "show turn").2).data, c.isWhitespace = true) :
    game_required tr f self params u = none :=
  game_required_no_token tr f self params u ps w opp hf ho
    (firstToken_whitespace _ hws)

/-- An engine whose turn query comes back whitespace-only. -/
def engWhitespace : List String → String := fun _ => " \n"

/-- A registry holding one session whose engine answers with whitespace. -/
def mWhitespace : GnubgManager :=
  { max_games := 1, workers := [(("alice", "gnubg"), { engine := engWhitespace })] }

/-- Witness for C10: with a whitespace-only turn response both `quit` and
`move` escape with an unhandled exception. -/
theorem c10_empty_turn_response_witness :
    GnubgManager.quit mWhitespace [] "alice" = none ∧
    GnubgManager.move mWhitespace [] "alice" = none :=
  ⟨c10_empty_turn_response false quitHandler mWhitespace [] "alice"
      ("alice", "gnubg") ({ engine := engWhitespace }) "gnubg" rfl rfl (by decide),
    c10_empty_turn_response true (run_command "move") mWhitespace [] "alice"
      ("alice", "gnubg") ({ engine := engWhitespace }) "gnubg" rfl rfl (by decide)⟩

/-! ### C1 -/

/-- An engine for the C1 scenario: reports alice's turn on the first turn
query (3rd stdin line), and no active game on the post-command turn query
(5th stdin line). -/
def engC1 : List String → String := fun h =>
  if h.length = 3 then "alice rolls 5 2." else
  if h.length = 5 then "No game in progress." else "board"

/-- Registry reached by `alice` running `new` against the default opponent,
with the C1 engine. -/
def mC1 : GnubgManager :=
  (GnubgManager.new ({ max_games := 1 } : GnubgManager) [] "alice"
    ({ engine := engC1 })).1

/-- Result of `alice` then running `move 8/4`, after which the engine reports
no active game. -/
def rC1 : Option (GnubgManager × Resp) := GnubgManager.move mC1 ["8/4"] "alice"

/-- C1: a command whose post-execution turn query reports no active game
terminates the EngineProcess (quit sequence written, process exited) but the
session entry is NOT removed from the registry: `run_command` never deletes
from `self.workers`, so the claimed auto-removal does not happen. -/
theorem c1_no_game_keeps_session_entry :
    (rC1.map (fun x => x.2)) = some Resp.ok ∧
    (rC1.map (fun x => keysOf x.1)) = some [("alice", "gnubg")] ∧
    (rC1.map (fun x => x.1.workers.map (fun pw => pw.2.exited))) = some [true] ∧
    (rC1.map (fun x => x.1.workers.map (fun pw => pw.2.hist))) =
      some [["set player 1 name alice", "new game", "show turn", "move 8/4",
        "show turn", "quit", "y"]] := by
  refine ⟨by decide, by decide, by decide, by decide⟩

/-! ### C2 -/

/-- Two-session registry reached by `alice` and then `carol` each running
`new @bob` (capacity 2): the opponent `bob` is never checked against existing
sessions. -/
def mC2a : GnubgManager × Resp :=
  GnubgManager.new ({ max_games := 2 } : GnubgManager) ["@bob"] "alice"
    ({ engine := engQuiet })

/-- Second step of the C2 scenario. -/
def mC2b : GnubgManager × Resp :=
  GnubgManager.new mC2a.1 ["@bob"] "carol" ({ engine := engQuiet })

/-- C2 counterexample: from the empty registry, `new @bob` by alice and then
`new @bob` by carol both succeed, leaving `bob` a participant of two active
sessions — the at-most-one-session invariant fails for requested opponents. -/
theorem c2_counterexample :
    mC2a.2 = Resp.ok ∧ mC2b.2 = Resp.ok ∧
    keysOf mC2b.1 = [("alice", "bob"), ("carol", "bob")] ∧
    ((keysOf mC2b.1).countP (fun k => inPair k "bob")) = 2 := by
  refine ⟨by decide, by decide, by decide, by decide⟩

/-- C2 amended: only the initiator is checked — `new` by a caller already
participating in a session is always rejected with the conflict error and
changes nothing, regardless of the requested opponent; the requested opponent
is not checked, so an identifier can appear in several sessions as opponent
(see the counterexample). -/
theorem c2_amended_initiator_conflict (self : GnubgManager) (params : List String)
    (u : String) (fresh : GnubgWorker)
    (hcap : self.workers.length ≠ self.max_games)
    (hin : self.workers.any (fun pw => inPair pw.1 u) = true) :
    GnubgManager.new self params u fresh = (self, Resp.forbidden conflictText) := by
  unfold GnubgManager.new
  rw [if_neg hcap, if_pos hin]

/-- Witness for the amended C2 at a concrete registry. -/
theorem c2_amended_initiator_conflict_witness :
    GnubgManager.new mC2a.1 ["@dave"] "alice" ({ engine := engQuiet }) =
      (mC2a.1, Resp.forbidden conflictText) :=
  c2_amended_initiator_conflict mC2a.1 ["@dave"] "alice" ({ engine := engQuiet })
    (by decide) (by decide)

/-! ### C3 -/

/-- Registry reached by `alice` running `new @bob` (the engine reports
alice's turn on every turn query). -/
def mC3 : GnubgManager :=
  (GnubgManager.new ({ max_games := 1 } : GnubgManager) ["@bob"] "alice"
    ({ engine := engTurnAlice })).1

/-- Result of `bob` (whose turn it is not) attempting `move 8/4`. -/
def rC3 : Option (GnubgManager × Resp) := GnubgManager.move mC3 ["8/4"] "bob"

/-- C3 counterexample: the wrong-turn attempt does fail with the forbidden
error, but the engine's input stream receives one write — the `show turn`
query appended as the 5th stdin line — so "zero writes" is false. -/
theorem c3_counterexample :
    (rC3.map (fun x => x.2)) = some (Resp.forbidden wrongTurnText) ∧
    (rC3.map (fun x => x.1.workers.map (fun pw => pw.2.hist))) =
      some [["set player 1 name alice", "set player 0 human",
        "set player 0 name bob", "new game", "show turn"]] := by
  refine ⟨by decide, by decide⟩

/-- C3 amended: a turn-gated command by a caller who owns a session but is
not the acting side fails with the wrong-turn `ForbiddenError`, and the only
write to the engine's input stream is the single `show turn` turn query — the
gated command itself is never written. -/
theorem c3_amended_wrong_turn (f : Handler) (self : GnubgManager)
    (params : List String) (u : String) (ps : String × String)
    (w : GnubgWorker) (opp t : String)
    (hf : findGame self.workers u = some (ps, w))
    (ho : otherPlayer ps u = some opp)
    (ht : firstToken (w.command "show turn").2 = some t)
    (hne : (t != u) = true) :
    game_required true f self params u =
      some ({ self with
        workers := updateWorker self.workers ps (w.command "show turn").1 },
        Resp.forbidden wrongTurnText) ∧
    ((w.command "show turn").1).hist = w.hist ++ ["show turn"] := by
  refine ⟨?_, by simp [GnubgWorker.command]⟩
  rw [game_required_found true f self params u ps w opp t hf ho ht]
  rw [if_pos (by rw [hne]; rfl)]

/-- Witness for the amended C3 at a concrete registry. -/
theorem c3_amended_wrong_turn_witness :
    game_required true (run_command "move") mSimple [] "bob" =
      some ({ mSimple with
        workers := updateWorker mSimple.workers ("alice", "bob")
          ((wSimple.command "show turn").1) },
        Resp.forbidden wrongTurnText) ∧
    ((wSimple.command "show turn").1).hist = wSimple.hist ++ ["show turn"] :=
  c3_amended_wrong_turn (run_command "move") mSimple [] "bob" ("alice", "bob")
    wSimple "alice" "alice" rfl rfl rfl (by decide)

/-! ### C4 -/

/-- A session pair containing the caller resolves, through the opponent
search, to either (caller, opponent) or (opponent, caller). -/
theorem otherPlayer_eq (ps : String × String) (u opp : String)
    (hpair : inPair ps u = true) (ho : otherPlayer ps u = some opp) :
    ps = (u, opp) ∨ ps = (opp, u) := by
  unfold otherPlayer at ho
  by_cases h1 : (ps.1 != u) = true
  · rw [if_pos h1] at ho
    have h3 : ps.1 = opp := Option.some.inj ho
    have h1' : ¬ps.1 = u := bne_iff_ne.1 h1
    have h2 : ps.2 = u := by
      unfold inPair at hpair
      rw [Bool.or_eq_true] at hpair
      rcases hpair with hh | hh
      · exact absurd (beq_iff_eq.1 hh) h1'
      · exact beq_iff_eq.1 hh
    right
    cases ps
    simp_all
  · rw [if_neg h1] at ho
    by_cases h2 : (ps.2 != u) = true
    · rw [if_pos h2] at ho
      have h3 : ps.2 = opp := Option.some.inj ho
      have h1' : ps.1 = u := by
        by_contra hc
        exact h1 (bne_iff_ne.2 hc)
      left
      cases ps
      simp_all
    · rw [if_neg h2] at ho
      exact absurd ho (by simp)

/-- An engine for the C4 counterexample: the turn query (3rd stdin line)
comes back whitespace-only. -/
def engC4 : List String → String := fun h =>
  if h.length = 3 then " " else "board"

/-- Registry reached by `alice` running `new` with the C4 engine. -/
def mC4 : GnubgManager :=
  (GnubgManager.new ({ max_games := 1 } : GnubgManager) [] "alice"
    ({ engine := engC4 })).1

/-- C4 counterexample: the caller owns a session, yet `quit` does consult
turn state — the wrapper issues a `show turn` query, and when that response
is whitespace-only `quit` escapes with an unhandled exception instead of
succeeding, refuting both "always succeeds" and "never consults turn
state". -/
theorem c4_counterexample :
    (findGame mC4.workers "alice").isSome = true ∧
    (GnubgManager.quit mC4 [] "alice").isSome = false := by
  refine ⟨by decide, by decide⟩

/-- C4 amended: for a caller who owns a session, whenever the turn query
returns at least one token — whatever that token is, so whosever turn it is —
`quit` succeeds, terminates the EngineProcess (recorded in the ghost
`retired` log with `exited = true`), and removes the caller's session key
from the registry; the `game_required` wrapper does, however, issue one
`show turn` query whose result `quit` ignores.  (`hkey` rules out the
unreachable registry holding both orientations of the same pair.) -/
theorem c4_amended_quit (self : GnubgManager) (params : List String) (u : String)
    (ps : String × String) (w : GnubgWorker) (opp t : String)
    (hf : findGame self.workers u = some (ps, w))
    (ho : otherPlayer ps u = some opp)
    (ht : firstToken (w.command "show turn").2 = some t)
    (hkey : ps = (u, opp) ∨ self.workers.any (fun pw => pw.1 == (u, opp)) = false) :
    ∃ w1 m1, GnubgManager.quit self params u = some (m1, Resp.ok) ∧
      w1.exited = true ∧
      m1.retired = self.retired ++ [w1] ∧
      m1.workers.map Prod.fst =
        (self.workers.map Prod.fst).filter (fun x => x != ps) := by
  have hq : GnubgManager.quit self params u =
      game_required false quitHandler self params u := rfl
  rw [hq, game_required_found false quitHandler self params u ps w opp t hf ho ht]
  rw [if_neg (by simp)]
  obtain ⟨hmem, hpair⟩ := findGame_mem self.workers u ps w hf
  obtain ⟨w2, m1, heq, hex, hhist, hret, hwk⟩ :=
    quitHandler_spec
      ({ self with workers := updateWorker self.workers ps (w.command "show turn").1 })
      params u ps opp ((w.command "show turn").1)
  rw [heq]
  refine ⟨w2, m1, rfl, hex, by rw [hret], ?_⟩
  have hkeyps :
      (if (updateWorker (updateWorker self.workers ps (w.command "show turn").1) ps
            w2).any (fun pw => pw.1 == (u, opp)) then (u, opp)
        else (opp, u)) = ps := by
    rcases otherPlayer_eq ps u opp hpair ho with hps | hps
    · rw [if_pos (by rw [any_key_updateWorker, any_key_updateWorker, ← hps]; exact hmem)]
      exact hps.symm
    · rcases hkey with hps2 | hany
      · rw [if_pos (by rw [any_key_updateWorker, any_key_updateWorker, ← hps2]; exact hmem)]
        exact hps2.symm
      · rw [if_neg (by rw [any_key_updateWorker, any_key_updateWorker, hany]; exact
          Bool.false_ne_true)]
        exact hps.symm
  rw [hwk] at *
  rw [hkeyps] at *
  rw [delKey_keys, updateWorker_keys, updateWorker_keys]

/-- Witness for the amended C4: `bob`, the opponent side of the stored pair,
quits while the engine reports it is alice's turn. -/
theorem c4_amended_quit_witness :
    ∃ w1 m1, GnubgManager.quit mSimple [] "bob" = some (m1, Resp.ok) ∧
      w1.exited = true ∧
      m1.retired = mSimple.retired ++ [w1] ∧
      m1.workers.map Prod.fst =
        (mSimple.workers.map Prod.fst).filter (fun x => x != ("alice", "bob")) :=
  c4_amended_quit mSimple [] "bob" ("alice", "bob") wSimple "alice" "alice"
    rfl rfl rfl (Or.inr (by decide))

/-! ### C5 -/

/-- Full registry (capacity 1) reached by `alice` running `new`. -/
def mC5 : GnubgManager :=
  (GnubgManager.new ({ max_games := 1 } : GnubgManager) [] "alice"
    ({ engine := engQuiet })).1

/-- C5 counterexample: with capacity 1 and `alice` already in the single
session, `alice` running `new` again fails with the capacity error, not the
conflict error — so "fails with ConflictError exactly when the caller already
appears in some active session" is false (capacity is checked first and
shadows the conflict). -/
theorem c5_counterexample :
    mC5.workers.any (fun pw => inPair pw.1 "alice") = true ∧
    (GnubgManager.new mC5 [] "alice" ({ engine := engQuiet })).2 =
      Resp.serviceUnavailable capacityText ∧
    (GnubgManager.new mC5 [] "alice" ({ engine := engQuiet })).2 ≠
      Resp.forbidden conflictText := by
  refine ⟨by decide, by decide, by decide⟩

/-- C5 amended: `new` fails with the capacity error exactly when the session
count equals the configured maximum; it fails with the conflict error exactly
when the count is below the maximum AND the caller already appears in some
session (capacity is checked first); both checks precede and are independent
of the opponent specification (`params` is universally quantified), and on
either failure the registry is unchanged. -/
theorem c5_amended_checks (self : GnubgManager) (params : List String)
    (u : String) (fresh : GnubgWorker) :
    ((GnubgManager.new self params u fresh).2 = Resp.serviceUnavailable capacityText ↔
      self.workers.length = self.max_games) ∧
    ((GnubgManager.new self params u fresh).2 = Resp.forbidden conflictText ↔
      (self.workers.length ≠ self.max_games ∧
        self.workers.any (fun pw => inPair pw.1 u) = true)) ∧
    ((self.workers.length = self.max_games ∨
        self.workers.any (fun pw => inPair pw.1 u) = true) →
      (GnubgManager.new self params u fresh).1 = self) := by
  unfold GnubgManager.new
  by_cases h1 : self.workers.length = self.max_games
  · rw [if_pos h1]
    exact ⟨by simp [h1], by simp [capacityText, conflictText, h1], fun _ => rfl⟩
  · rw [if_neg h1]
    by_cases h2 : self.workers.any (fun pw => inPair pw.1 u) = true
    · rw [if_pos h2]
      exact ⟨by simp [capacityText, conflictText, h1], by simp [h1, h2], fun _ => rfl⟩
    · rw [if_neg h2]
      rcases hres : resolveChallenged params with _ | ch
      · simp only [hres]
        exact ⟨by simp [h1], by simp [h1, h2], fun _ => by trivial⟩
      · simp only [hres]
        refine ⟨by simp [h1], by simp [h1, h2], ?_⟩
        rintro (hd | hd)
        · exact absurd hd h1
        · exact absurd hd h2

/-- Witness for the amended C5: on a full registry the state is unchanged. -/
theorem c5_amended_checks_witness :
    (GnubgManager.new mC5 [] "alice" ({ engine := engQuiet })).1 = mC5 :=
  (c5_amended_checks mC5 [] "alice" ({ engine := engQuiet })).2.2
    (Or.inl (by decide))

/-! ### C6 -/

/-- If the caller participates in no session, no registered key has the
caller as its first component. -/
theorem not_key_of_not_inPair (ws : List ((String × String) × GnubgWorker))
    (u ch : String)
    (hconf : ws.any (fun pw => inPair pw.1 u) = false) :
    ws.any (fun pw => pw.1 == (u, ch)) = false := by
  cases hq : ws.any (fun pw => pw.1 == (u, ch)) with
  | false => rfl
  | true =>
    exfalso
    obtain ⟨pw, hmem, hbeq⟩ := List.any_eq_true.1 hq
    have hpe : pw.1 = (u, ch) := beq_iff_eq.1 hbeq
    have hcontra : ws.any (fun pw => inPair pw.1 u) = true :=
      List.any_eq_true.2 ⟨pw, hmem, by rw [hpe]; simp [inPair]⟩
    rw [hconf] at hcontra
    exact Bool.false_ne_true hcontra

/-- C6: opponent resolution — unspecified defaults to the built-in AI
`gnubg`; naming `gnubg` itself and an `@`-marked human (with the marker
stripped) are accepted; anything else fails with the validation error, in
which case no session is registered and the registry is left exactly as it
was (in particular no EngineProcess entry is created); on acceptance the
session is registered under (caller, resolved opponent). -/
theorem c6_opponent_resolution (self : GnubgManager) (params : List String)
    (u : String) (fresh : GnubgWorker)
    (hcap : self.workers.length ≠ self.max_games)
    (hconf : self.workers.any (fun pw => inPair pw.1 u) = false) :
    resolveChallenged [] = some "gnubg" ∧
    (∀ p0 rest, p0 = "gnubg" → resolveChallenged (p0 :: rest) = some "gnubg") ∧
    (∀ p0 rest, (p0 == "gnubg") = false → pyStartswith p0 "@" = true →
      resolveChallenged (p0 :: rest) = some (p0.drop 1)) ∧
    (∀ p0 rest, (p0 == "gnubg") = false → pyStartswith p0 "@" = false →
      resolveChallenged (p0 :: rest) = none) ∧
    (resolveChallenged params = none →
      GnubgManager.new self params u fresh = (self, Resp.badRequest validationText)) ∧
    (∀ ch, resolveChallenged params = some ch →
      (GnubgManager.new self params u fresh).2 = Resp.ok ∧
      ((GnubgManager.new self params u fresh).1).workers.map Prod.fst =
        self.workers.map Prod.fst ++ [(u, ch)]) := by
  have hconf' : ¬self.workers.any (fun pw => inPair pw.1 u) = true := by
    rw [hconf]; exact Bool.false_ne_true
  refine ⟨rfl, ?_, ?_, ?_, ?_, ?_⟩
  · intro p0 rest hp
    simp [resolveChallenged, hp]
  · intro p0 rest hp hat
    simp [resolveChallenged, hp, hat]
  · intro p0 rest hp hat
    simp [resolveChallenged, hp, hat]
  · intro hres
    unfold GnubgManager.new
    rw [if_neg hcap, if_neg hconf']
    simp [hres]
  · intro ch hres
    unfold GnubgManager.new
    rw [if_neg hcap, if_neg hconf']
    simp only [hres]
    refine ⟨by trivial, ?_⟩
    simp only [dictSet, not_key_of_not_inPair self.workers u ch hconf,
      Bool.false_eq_true, if_false, List.map_append, List.map_cons, List.map_nil]

/-- Witness for C6: `new` with no opponent given registers the caller against
the default `gnubg`. -/
theorem c6_opponent_resolution_witness :
    (GnubgManager.new ({ max_games := 1 } : GnubgManager) [] "alice"
      ({ engine := engQuiet })).2 = Resp.ok ∧
    ((GnubgManager.new ({ max_games := 1 } : GnubgManager) [] "alice"
      ({ engine := engQuiet })).1).workers.map Prod.fst =
      ({ max_games := 1 } : GnubgManager).workers.map Prod.fst ++
        [("alice", "gnubg")] :=
  (c6_opponent_resolution ({ max_games := 1 } : GnubgManager) [] "alice"
    ({ engine := engQuiet }) (by decide) (by decide)).2.2.2.2.2 "gnubg" rfl

/-! ### C7 -/

/-- A turn-required gated command attempted off-turn fails with the
wrong-turn error. -/
theorem gated_wrong_turn (name : String) (self : GnubgManager)
    (params : List String) (u : String) (ps : String × String)
    (w : GnubgWorker) (opp t : String)
    (hf : findGame self.workers u = some (ps, w))
    (ho : otherPlayer ps u = some opp)
    (ht : firstToken (w.command "show turn").2 = some t)
    (hne : (t != u) = true) :
    (game_required true (run_command name) self params u).map (fun x => x.2) =
      some (Resp.forbidden wrongTurnText) := by
  rw [game_required_found true _ self params u ps w opp t hf ho ht,
    if_pos (by rw [hne]; rfl)]
  rfl

/-- A non-turn-required gated engine command proceeds for whatever token the
turn query returns, answering HTTP 200. -/
theorem gated_any_turn_run (name : String) (self : GnubgManager)
    (params : List String) (u : String) (ps : String × String)
    (w : GnubgWorker) (opp t : String)
    (hf : findGame self.workers u = some (ps, w))
    (ho : otherPlayer ps u = some opp)
    (ht : firstToken (w.command "show turn").2 = some t) :
    (game_required false (run_command name) self params u).map (fun x => x.2) =
      some Resp.ok := by
  rw [game_required_found false _ self params u ps w opp t hf ho ht,
    if_neg (by simp)]
  obtain ⟨m1, he, _⟩ := run_command_spec name
    ({ self with workers := updateWorker self.workers ps (w.command "show turn").1 })
    params u ps opp ((w.command "show turn").1)
  rw [he]
  rfl

/-- The quit handler proceeds for whatever token the turn query returns,
answering HTTP 200. -/
theorem gated_any_turn_quit (self : GnubgManager) (params : List String)
    (u : String) (ps : String × String) (w : GnubgWorker) (opp t : String)
    (hf : findGame self.workers u = some (ps, w))
    (ho : otherPlayer ps u = some opp)
    (ht : firstToken (w.command "show turn").2 = some t) :
    (game_required false quitHandler self params u).map (fun x => x.2) =
      some Resp.ok := by
  rw [game_required_found false _ self params u ps w opp t hf ho ht,
    if_neg (by simp)]
  obtain ⟨w2, m1, he, _⟩ := quitHandler_spec
    ({ self with workers := updateWorker self.workers ps (w.command "show turn").1 })
    params u ps opp ((w.command "show turn").1)
  rw [he]
  rfl

/-- `new` only ever answers 200, the capacity error, the conflict error or
the validation error. -/
theorem new_resp_cases (self : GnubgManager) (params : List String)
    (u : String) (fresh : GnubgWorker) :
    (GnubgManager.new self params u fresh).2 = Resp.ok ∨
    (GnubgManager.new self params u fresh).2 = Resp.serviceUnavailable capacityText ∨
    (GnubgManager.new self params u fresh).2 = Resp.forbidden conflictText ∨
    (GnubgManager.new self params u fresh).2 = Resp.badRequest validationText := by
  unfold GnubgManager.new
  by_cases h1 : self.workers.length = self.max_games
  · rw [if_pos h1]
    right; left; rfl
  · rw [if_neg h1]
    by_cases h2 : self.workers.any (fun pw => inPair pw.1 u) = true
    · rw [if_pos h2]
      right; right; left; rfl
    · rw [if_neg h2]
      rcases hres : resolveChallenged params with _ | ch <;> simp only [hres]
      · right; right; right; trivial
      · left; trivial

/-- C7: the turn-gating policy — `move`, `double`, `roll`, `resign` require
the caller's turn (off-turn attempts fail with the wrong-turn error); those
four plus `accept`, `redouble`, `reject`, `quit` require an active session
(no-session attempts fail with the no-game error); `accept`, `redouble`,
`reject`, `quit` proceed whatever the turn token is; `help` and `info` answer
unconditionally with the registry untouched; `new` never performs a turn or
session-requirement check (it can never answer the no-game or wrong-turn
errors). -/
theorem c7_turn_policy :
    (∀ c ∈ [Cmd.move, Cmd.double, Cmd.roll, Cmd.resign],
      ∀ (self : GnubgManager) (params : List String) (u : String)
        (fresh : GnubgWorker) (ps : String × String) (w : GnubgWorker) (opp t : String),
      findGame self.workers u = some (ps, w) →
      otherPlayer ps u = some opp →
      firstToken (w.command "show turn").2 = some t →
      (t != u) = true →
      (dispatch c self params u fresh).map (fun x => x.2) =
        some (Resp.forbidden wrongTurnText)) ∧
    (∀ c ∈ [Cmd.move, Cmd.double, Cmd.roll, Cmd.resign, Cmd.accept, Cmd.redouble,
        Cmd.reject, Cmd.quit],
      ∀ (self : GnubgManager) (params : List String) (u : String) (fresh : GnubgWorker),
      findGame self.workers u = none →
      dispatch c self params u fresh = some (self, Resp.forbidden noGameText)) ∧
    (∀ c ∈ [Cmd.accept, Cmd.redouble, Cmd.reject, Cmd.quit],
      ∀ (self : GnubgManager) (params : List String) (u : String)
        (fresh : GnubgWorker) (ps : String × String) (w : GnubgWorker) (opp t : String),
      findGame self.workers u = some (ps, w) →
      otherPlayer ps u = some opp →
      firstToken (w.command "show turn").2 = some t →
      (dispatch c self params u fresh).map (fun x => x.2) = some Resp.ok) ∧
    (∀ (self : GnubgManager) (params : List String) (u : String) (fresh : GnubgWorker),
      dispatch Cmd.help self params u fresh = some (self, Resp.okText HELP_TEXT) ∧
      ∃ txt, dispatch Cmd.info self params u fresh = some (self, Resp.okText txt)) ∧
    (∀ (self : GnubgManager) (params : List String) (u : String) (fresh : GnubgWorker),
      (GnubgManager.new self params u fresh).2 ≠ Resp.forbidden noGameText ∧
      (GnubgManager.new self params u fresh).2 ≠ Resp.forbidden wrongTurnText) := by
  refine ⟨?_, ?_, ?_, ?_, ?_⟩
  · intro c hc self params u fresh ps w opp t hf ho ht hne
    fin_cases hc <;>
      exact gated_wrong_turn _ self params u ps w opp t hf ho ht hne
  · intro c hc self params u fresh hf
    fin_cases hc <;> exact game_required_no_session _ _ self params u hf
  · intro c hc self params u fresh ps w opp t hf ho ht
    fin_cases hc
    · exact gated_any_turn_run "accept" self params u ps w opp t hf ho ht
    · exact gated_any_turn_run "redouble" self params u ps w opp t hf ho ht
    · exact gated_any_turn_run "reject" self params u ps w opp t hf ho ht
    · exact gated_any_turn_quit self params u ps w opp t hf ho ht
  · intro self params u fresh
    exact ⟨rfl, ⟨_, rfl⟩⟩
  · intro self params u fresh
    rcases new_resp_cases self params u fresh with h | h | h | h <;> rw [h] <;>
      exact ⟨by decide, by decide⟩

/-- Witness for C7: off-turn `move` is forbidden, off-turn `accept` and
no-session `quit` behave per the policy table. -/
theorem c7_turn_policy_witness :
    (dispatch Cmd.move mSimple [] "bob" wSimple).map (fun x => x.2) =
      some (Resp.forbidden wrongTurnText) ∧
    (dispatch Cmd.accept mSimple [] "bob" wSimple).map (fun x => x.2) =
      some Resp.ok ∧
    dispatch Cmd.quit ({ max_games := 1 } : GnubgManager) [] "bob" wSimple =
      some (({ max_games := 1 } : GnubgManager), Resp.forbidden noGameText) :=
  ⟨c7_turn_policy.1 Cmd.move (by decide) mSimple [] "bob" wSimple
      ("alice", "bob") wSimple "alice" "alice" rfl rfl rfl (by decide),
    (c7_turn_policy.2.2.1 Cmd.accept (by decide) mSimple [] "bob" wSimple
      ("alice", "bob") wSimple "alice" "alice" rfl rfl rfl),
    (c7_turn_policy.2.1 Cmd.quit (by decide) ({ max_games := 1 } : GnubgManager)
      [] "bob" wSimple rfl)⟩
